import Mathlib

/-!
Verification of the single-file encrypted store manager of the journal-app
repository (src/backend/db.js, src/backend/db-bootstrap.js, server.js).

The JavaScript code is shallowly embedded: byte buffers become `List Nat`,
the filesystem becomes an explicit map from path strings to optional byte
contents, and each fallible external step (argon2 key derivation, the
SQLite engine open, the probe query, a writeFileSync that may fail partway)
is driven by an explicit environment value so that every control-flow path
of the source is a value of the model.
-/

namespace JournalApp

/-- Byte buffers (Node `Buffer`) are lists of natural numbers. -/
abbrev Bytes := List Nat

/-- The filesystem: a map from path to the contents of the file at that
path, or `none` when no file exists there (`fs.existsSync` is false). -/
def FSState := String → Option Bytes

/-- `fs.writeFileSync p d`: afterwards path `p` holds exactly `d`. -/
def fsWrite (fs : FSState) (p : String) (d : Bytes) : FSState :=
  fun q => if q = p then some d else fs q

/-- `fs.unlinkSync p` (also models the no-op when the file is absent). -/
def fsUnlink (fs : FSState) (p : String) : FSState :=
  fun q => if q = p then none else fs q

/-- Error taxonomy of the store, one constructor per distinct `throw`
site in db.js / db-bootstrap.js.  The source throws plain `Error`s with
messages; the constructor names follow the spec taxonomy so that each
source message maps to one constructor. -/
inductive DbError where
  /-- db.js line 59: journal does not exist -/
  | notFound
  /-- db.js line 65: database file is corrupted (too small) -/
  | corruptContainer
  /-- db.js line 104: failed to unlock, incorrect passphrase -/
  | wrongPassphrase
  /-- db-bootstrap.js line 45: journal already exists -/
  | alreadyExists
  /-- `argon2.hash` rejected (resource exhaustion / bad parameters) -/
  | derivationError
  /-- `new Database(tempDbPath, ...)` threw -/
  | engineOpenError
deriving DecidableEq, Repr

instance {ε α : Type} [DecidableEq ε] [DecidableEq α] :
    DecidableEq (Except ε α) := fun a b =>
  match a, b with
  | .error e, .error f =>
    if h : e = f then isTrue (by rw [h])
    else isFalse (by intro hh; cases hh; exact h rfl)
  | .error _, .ok _ => isFalse (by intro h; cases h)
  | .ok _, .error _ => isFalse (by intro h; cases h)
  | .ok a, .ok b =>
    if h : a = b then isTrue (by rw [h])
    else isFalse (by intro hh; cases hh; exact h rfl)

/-- Container split, db.js lines 63-69: reject inputs shorter than 16
bytes, otherwise the first 16 bytes are the salt and the rest the
engine payload (`fileData.slice(0, 16)` / `fileData.slice(16)`). -/
def splitContainer (raw : Bytes) : Except DbError (Bytes × Bytes) :=
  if raw.length < 16 then .error .corruptContainer
  else .ok (raw.take 16, raw.drop 16)

/-- Container join, db.js line 139 and db-bootstrap.js line 106:
`Buffer.concat([salt, dbData])`. -/
def joinContainer (salt payload : Bytes) : Bytes :=
  salt ++ payload

/-- The character class `[a-zA-Z0-9_-]` of the sanitizing regex in
`getJournalPath` (db.js line 25), decided on code points as the JS
regex does. -/
def isSafeChar (c : Char) : Bool :=
  (97 ≤ c.toNat && c.toNat ≤ 122) ||
  (65 ≤ c.toNat && c.toNat ≤ 90) ||
  (48 ≤ c.toNat && c.toNat ≤ 57) ||
  c == '_' || c == '-'

/-- One step of `journalName.replace(/[^a-zA-Z0-9_-]/g, '_')`. -/
def sanitizeChar (c : Char) : Char :=
  if isSafeChar c then c else '_'

/-- db.js lines 23-27: sanitize the journal name character by character,
then `path.join(JOURNAL_DIR, safeName + ".db")`.  `dir` is the
environment-configured `JOURNAL_DIR`; since the sanitized component
contains no separators or dots, `path.join` is plain concatenation. -/
def getJournalPath (dir : String) (journalName : String) : String :=
  dir ++ "/" ++ ⟨journalName.data.map sanitizeChar⟩ ++ ".db"

/-- Outcomes of the fallible external steps taken inside `openDatabase`:
whether `argon2.hash` resolves, whether `new Database(tempDbPath, ...)`
succeeds, and whether the probe query (`PRAGMA cipher_version` plus
`SELECT name FROM sqlite_master LIMIT 1`) succeeds.  The probe succeeds
exactly when the passphrase was right, which the model leaves to the
environment because the cipher itself is the engine's. -/
structure OpenEnv where
  deriveOk : Bool
  engineOpenOk : Bool
  probeOk : Bool
deriving DecidableEq, Repr

/-- db.js lines 55-111, `openDatabase`: resolve the path, require the
file to exist, split off the 16-byte salt header, remove any stale
`.tmp` sibling, write the payload to the `.tmp` staging file, derive
the key, open the engine on the staging file and run the probe query.
Only the probe-failure branch (lines 101-105) unlinks the staging
file before throwing.  Returns the result the caller sees (`dbPath`
on success) together with the filesystem afterwards. -/
def openDatabase (env : OpenEnv) (fs : FSState) (dir journalName : String) :
    Except DbError String × FSState :=
  let dbPath := getJournalPath dir journalName
  match fs dbPath with
  | none => (.error .notFound, fs)
  | some fileData =>
    match splitContainer fileData with
    | .error e => (.error e, fs)
    | .ok (_salt, dbData) =>
      let tempDbPath := dbPath ++ ".tmp"
      let fs1 := fsUnlink fs tempDbPath
      let fs2 := fsWrite fs1 tempDbPath dbData
      if env.deriveOk = false then (.error .derivationError, fs2)
      else if env.engineOpenOk = false then (.error .engineOpenError, fs2)
      else if env.probeOk = false then
        (.error .wrongPassphrase, fsUnlink fs2 tempDbPath)
      else (.ok dbPath, fs2)

/-- The primitive filesystem operations the fold-back code performs, with
the path they touch, recorded as a trace so that theorems can state which
mechanism (in-place write vs. temp-file-and-rename) the source uses. -/
inductive FsOp where
  | read (p : String)
  | write (p : String)
  | unlink (p : String)
  | rename (src dst : String)
deriving DecidableEq, Repr

/-- Whether an operation is a rename. -/
def FsOp.isRename : FsOp → Bool
  | .rename _ _ => true
  | _ => false

/-- Outcome of a `fs.writeFileSync(dbPath, ...)` call: it either writes
all bytes, or fails after writing only the first `k` bytes of the new
contents (the file was opened with truncation, so a failed write leaves
a prefix of the new data). -/
inductive WriteRes where
  | ok
  | fail (k : Nat)
deriving DecidableEq, Repr

/-- The fold-back of the staging artifact into the canonical vault file,
as written (twice, identically) in db.js lines 134-141 (`closeDatabase`)
and server.js lines 35-44 (the auto-save interval body): if the `.tmp`
sibling exists, read it, read the canonical file, take its first 16
bytes as the salt, `writeFileSync` salt-plus-payload over the canonical
path, and unlink the `.tmp` file.  Returns the filesystem, the trace of
operations, and whether the block ran to completion without throwing. -/
def mergeTempIntoMain (w : WriteRes) (fs : FSState) (dbPath : String) :
    FSState × List FsOp × Bool :=
  let tempDbPath := dbPath ++ ".tmp"
  match fs tempDbPath with
  | none => (fs, [], true)
  | some dbData =>
    match fs dbPath with
    | none => (fs, [.read tempDbPath, .read dbPath], false)
    | some fileData =>
      let salt := fileData.take 16
      let dbWithHeader := joinContainer salt dbData
      match w with
      | .ok =>
        (fsUnlink (fsWrite fs dbPath dbWithHeader) tempDbPath,
         [.read tempDbPath, .read dbPath, .write dbPath, .unlink tempDbPath],
         true)
      | .fail k =>
        (fsWrite fs dbPath (dbWithHeader.take k),
         [.read tempDbPath, .read dbPath, .write dbPath],
         false)

/-- Outcomes of the fallible steps of `closeDatabase`: whether
`db.close()` succeeds and how the `writeFileSync` over the canonical
file goes. -/
structure CloseEnv where
  closeOk : Bool
  writeRes : WriteRes
deriving DecidableEq, Repr

/-- What a caller of `closeDatabase` can observe afterwards. -/
structure CloseOutcome where
  fs : FSState
  trace : List FsOp
  handleClosed : Bool
  surfacedError : Option DbError

/-- db.js lines 118-147, `closeDatabase`: checkpoint (its own errors are
ignored by the inner try/catch), `db.close()`, then the fold-back merge.
The whole body sits in a try/catch whose handler only does
`console.error`, so no error ever escapes to the caller: the JS
function always returns `undefined`. -/
def closeDatabase (env : CloseEnv) (fs : FSState) (dbPath : String) :
    CloseOutcome :=
  if env.closeOk = false then
    { fs := fs, trace := [], handleClosed := false, surfacedError := none }
  else
    let m := mergeTempIntoMain env.writeRes fs dbPath
    { fs := m.1, trace := m.2.1, handleClosed := true, surfacedError := none }

/-- The process-wide session variables of server.js lines 20-23. -/
structure ServerSt where
  dbConnection : Option Nat
  dbPath : Option String
  isUnlocked : Bool
  autoSaveOn : Bool
deriving DecidableEq, Repr

/-- One firing of the auto-save interval body, server.js lines 31-49:
guarded by `dbConnection && isUnlocked && dbPath`, then the same
fold-back merge as `closeDatabase`, with any error caught and logged. -/
def autoSaveTick (w : WriteRes) (st : ServerSt) (fs : FSState) :
    FSState × List FsOp :=
  match st.dbConnection, st.dbPath with
  | some _, some dbPath =>
    if st.isUnlocked then
      let m := mergeTempIntoMain w fs dbPath
      (m.1, m.2.1)
    else (fs, [])
  | _, _ => (fs, [])

/-- An HTTP response as the route handlers build it: the status code
(Express default 200 for a plain `res.json`). -/
structure HttpResp where
  status : Nat
deriving DecidableEq, Repr

/-- server.js lines 101-119, the `POST /api/unlock` handler: validate
the body (JS falsiness: the empty string is rejected too), call
`openDatabase`, and on success overwrite `dbConnection`, `dbPath` and
`isUnlocked` and restart the auto-save timer.  The handler never
inspects the current `isUnlocked` state.  `newHandle` stands for the
fresh engine connection object `result.db`. -/
def postUnlock (env : OpenEnv) (newHandle : Nat) (fs : FSState)
    (st : ServerSt) (dir journalName passphrase : String) :
    HttpResp × ServerSt × FSState :=
  if journalName = "" ∨ passphrase = "" then ({ status := 400 }, st, fs)
  else
    match openDatabase env fs dir journalName with
    | (.error _, fs') => ({ status := 401 }, st, fs')
    | (.ok dbPath, fs') =>
      ({ status := 200 },
       { dbConnection := some newHandle, dbPath := some dbPath,
         isUnlocked := true, autoSaveOn := true },
       fs')

/-- db-bootstrap.js lines 41-112, `createJournal`: fail if the resolved
path already exists, create the engine database at that path (the engine
serializes its encrypted state there; `engineBytes` stands for those
bytes), close it, read the file back, prepend the fresh 16-byte salt and
write the joined container over the path. -/
def createJournal (fs : FSState) (dir journalName : String)
    (salt engineBytes : Bytes) : Except DbError String × FSState :=
  let dbPath := getJournalPath dir journalName
  match fs dbPath with
  | some _ => (.error .alreadyExists, fs)
  | none =>
    let fs1 := fsWrite fs dbPath engineBytes
    let fs2 := fsWrite fs1 dbPath (joinContainer salt engineBytes)
    (.ok dbPath, fs2)

/-- The options object passed to `argon2.hash` in db.js lines 36-44:
`type: argon2id` (code 2), `memoryCost: 65536`, `timeCost: 3`,
`parallelism: 4`, `hashLength: 32`, the explicit salt, `raw: true`. -/
structure Argon2Options where
  type : Nat
  memoryCost : Nat
  timeCost : Nat
  parallelism : Nat
  hashLength : Nat
  salt : Option Bytes
  raw : Bool

/-- The npm `argon2.hash(passphrase, options)` entry point.  The Argon2id
compression itself lives in the external library, so it is a parameter
`core`, a pure function of the options, the passphrase and the salt.  The
library draws a fresh random salt only when the caller supplies none;
`freshSalt` is that random draw, the only nondeterministic input. -/
def argon2Hash (core : Argon2Options → String → Bytes → Bytes)
    (freshSalt : Bytes) (passphrase : String) (opts : Argon2Options) :
    Bytes :=
  core opts passphrase (opts.salt.getD freshSalt)

/-- Hex digit for a value below 16, as `Buffer.toString('hex')` emits. -/
def hexDigit (n : Nat) : Char :=
  if n < 10 then Char.ofNat (48 + n) else Char.ofNat (87 + n)

/-- `Buffer.toString('hex')`: two lowercase hex characters per byte. -/
def bytesToHex (bs : Bytes) : String :=
  ⟨(bs.map (fun b => [hexDigit (b / 16 % 16), hexDigit (b % 16)])).flatten⟩

/-- db.js lines 35-47, `deriveKey`: call `argon2.hash` with the pinned
cost parameters, the caller's salt and `raw: true`, and hex-encode the
resulting raw hash. -/
def deriveKey (core : Argon2Options → String → Bytes → Bytes)
    (freshSalt : Bytes) (passphrase : String) (salt : Bytes) : String :=
  bytesToHex (argon2Hash core freshSalt passphrase
    { type := 2, memoryCost := 65536, timeCost := 3, parallelism := 4,
      hashLength := 32, salt := some salt, raw := true })

/-! ## Helper lemmas -/

theorem fsWrite_self (fs : FSState) (p : String) (d : Bytes) :
    fsWrite fs p d p = some d := by
  simp [fsWrite]

theorem fsWrite_other (fs : FSState) (p q : String) (d : Bytes)
    (h : q ≠ p) : fsWrite fs p d q = fs q := by
  simp [fsWrite, h]

theorem fsUnlink_self (fs : FSState) (p : String) :
    fsUnlink fs p p = none := by
  simp [fsUnlink]

theorem fsUnlink_other (fs : FSState) (p q : String) (h : q ≠ p) :
    fsUnlink fs p q = fs q := by
  simp [fsUnlink, h]

theorem tmpPath_ne (p : String) : p ++ ".tmp" ≠ p := by
  intro h
  have hl := congrArg String.length h
  rw [String.length_append] at hl
  have h4 : String.length ".tmp" = 4 := rfl
  omega

theorem canonical_ne_tmpPath (p : String) : p ≠ p ++ ".tmp" :=
  fun h => tmpPath_ne p h.symm

/-- Hex encoding emits two characters per byte. -/
theorem bytesToHex_length (bs : Bytes) :
    (bytesToHex bs).length = 2 * bs.length := by
  induction bs with
  | nil => rfl
  | cons b t ih =>
    have h1 : (bytesToHex (b :: t)).length = 2 + (bytesToHex t).length := by
      simp [bytesToHex, String.length]
      omega
    rw [h1, ih, List.length_cons]
    ring

/-- `openDatabase` never writes the canonical vault path: on every exit
path the canonical file's bytes are those it started with. -/
theorem openDatabase_canonical_unchanged (env : OpenEnv) (fs : FSState)
    (dir journalName : String) :
    (openDatabase env fs dir journalName).2 (getJournalPath dir journalName) =
      fs (getJournalPath dir journalName) := by
  unfold openDatabase
  cases hfs : fs (getJournalPath dir journalName) with
  | none => simp [hfs]
  | some fileData =>
    cases hsplit : splitContainer fileData with
    | error e => simp [hfs, hsplit]
    | ok pr =>
      obtain ⟨salt, dbData⟩ := pr
      have hne : getJournalPath dir journalName ≠
          getJournalPath dir journalName ++ ".tmp" := canonical_ne_tmpPath _
      by_cases hd : env.deriveOk = false <;>
        by_cases he : env.engineOpenOk = false <;>
        by_cases hp : env.probeOk = false <;>
        simp [hfs, hsplit, hd, he, hp, fsWrite_other, fsUnlink_other, hne]

/-- Successful fold-back: the canonical file holds the old salt joined
with the staged payload, the staging artifact is gone, and the trace is
read-read-write-unlink with the write aimed at the canonical path. -/
theorem mergeTempIntoMain_ok (fs : FSState) (dbPath : String)
    (dbData fileData : Bytes)
    (htmp : fs (dbPath ++ ".tmp") = some dbData)
    (hdb : fs dbPath = some fileData) :
    (mergeTempIntoMain .ok fs dbPath).1 dbPath =
      some (joinContainer (fileData.take 16) dbData) ∧
    (mergeTempIntoMain .ok fs dbPath).1 (dbPath ++ ".tmp") = none ∧
    (mergeTempIntoMain .ok fs dbPath).2.1 =
      [.read (dbPath ++ ".tmp"), .read dbPath, .write dbPath,
       .unlink (dbPath ++ ".tmp")] := by
  simp only [mergeTempIntoMain, htmp, hdb]
  refine ⟨?_, ?_, trivial⟩
  · rw [fsUnlink_other _ _ _ (canonical_ne_tmpPath dbPath), fsWrite_self]
  · rw [fsUnlink_self]

/-- Failed `writeFileSync` during the fold-back: the canonical file is
left holding the first `k` bytes of the new joined contents, and the
staging artifact survives. -/
theorem mergeTempIntoMain_fail (fs : FSState) (dbPath : String)
    (dbData fileData : Bytes) (k : Nat)
    (htmp : fs (dbPath ++ ".tmp") = some dbData)
    (hdb : fs dbPath = some fileData) :
    (mergeTempIntoMain (.fail k) fs dbPath).1 dbPath =
      some ((joinContainer (fileData.take 16) dbData).take k) ∧
    (mergeTempIntoMain (.fail k) fs dbPath).1 (dbPath ++ ".tmp") =
      some dbData ∧
    (mergeTempIntoMain (.fail k) fs dbPath).2.1 =
      [.read (dbPath ++ ".tmp"), .read dbPath, .write dbPath] := by
  simp only [mergeTempIntoMain, htmp, hdb]
  refine ⟨fsWrite_self _ _ _, ?_, trivial⟩
  rw [fsWrite_other _ _ _ _ (tmpPath_ne dbPath), htmp]

/-- The fold-back never performs a rename, whatever the filesystem and
however the write goes. -/
theorem mergeTempIntoMain_no_rename (w : WriteRes) (fs : FSState)
    (dbPath : String) :
    ∀ op ∈ (mergeTempIntoMain w fs dbPath).2.1, op.isRename = false := by
  cases htmp : fs (dbPath ++ ".tmp") with
  | none => simp [mergeTempIntoMain, htmp]
  | some dbData =>
    cases hdb : fs dbPath with
    | none => simp [mergeTempIntoMain, htmp, hdb, FsOp.isRename]
    | some fileData =>
      cases w with
      | ok => simp [mergeTempIntoMain, htmp, hdb, FsOp.isRename]
      | fail k => simp [mergeTempIntoMain, htmp, hdb, FsOp.isRename]

/-! ## Claim theorems -/

/-- Claim C3: for every payload byte sequence P and every 16-byte salt S,
splitting the concatenation join(S, P) returns exactly the pair (S, P):
the round-trip law of the container codec. -/
theorem split_join_roundtrip (S P : Bytes) (hS : S.length = 16) :
    splitContainer (joinContainer S P) = .ok (S, P) := by
  have hlen : ¬(S ++ P).length < 16 := by
    rw [List.length_append, hS]; omega
  unfold splitContainer joinContainer
  rw [if_neg hlen, List.take_left' hS, List.drop_left' hS]

/-- Witness for `split_join_roundtrip` at a concrete 16-byte salt. -/
theorem split_join_roundtrip_witness :
    (List.range 16).length = 16 ∧
    splitContainer (joinContainer (List.range 16) [7, 7]) =
      .ok (List.range 16, [7, 7]) :=
  ⟨by decide, split_join_roundtrip (List.range 16) [7, 7] (by decide)⟩

/-- Claim C7: split fails with the corrupt-container error on every input
shorter than 16 bytes, and on an input of exactly 16 bytes succeeds with
those bytes as the salt and an empty payload. -/
theorem split_short_corrupt_exact_empty (raw raw16 : Bytes)
    (hshort : raw.length < 16) (hexact : raw16.length = 16) :
    splitContainer raw = .error .corruptContainer ∧
    splitContainer raw16 = .ok (raw16, []) := by
  constructor
  · unfold splitContainer
    rw [if_pos hshort]
  · unfold splitContainer
    rw [if_neg (by omega), ← hexact, List.take_length, List.drop_length]

/-- Witness for `split_short_corrupt_exact_empty` at a 15-byte and a
16-byte input. -/
theorem split_short_corrupt_exact_empty_witness :
    (List.replicate 15 3).length < 16 ∧ (List.range 16).length = 16 ∧
    (splitContainer (List.replicate 15 3) = .error .corruptContainer ∧
     splitContainer (List.range 16) = .ok (List.range 16, [])) :=
  ⟨by decide, by decide,
   split_short_corrupt_exact_empty (List.replicate 15 3) (List.range 16)
     (by decide) (by decide)⟩

/-- Claim C8: getJournalPath maps every character outside [A-Za-z0-9_-]
to an underscore before constructing the path, so the resolved path is
always dir/(safe component).db where the component contains no path
separator and no dot; in particular the name "a/../../etc" resolves to
the in-directory path dir/a_______etc.db and never escapes. -/
theorem getJournalPath_sanitizes (dir name : String) :
    (∀ c ∈ name.data.map sanitizeChar,
       isSafeChar c = true ∧ c ≠ '/' ∧ c ≠ '.') ∧
    (∃ base : String,
       getJournalPath dir name = dir ++ "/" ++ base ++ ".db" ∧
       ∀ c ∈ base.data, isSafeChar c = true ∧ c ≠ '/' ∧ c ≠ '.') ∧
    getJournalPath dir "a/../../etc" = dir ++ "/" ++ "a_______etc" ++ ".db" := by
  have hsafe : ∀ (s : String), ∀ c ∈ s.data.map sanitizeChar,
      isSafeChar c = true ∧ c ≠ '/' ∧ c ≠ '.' := by
    intro s c hc
    obtain ⟨a, _, rfl⟩ := List.mem_map.1 hc
    unfold sanitizeChar
    by_cases h : isSafeChar a = true
    · rw [if_pos h]
      refine ⟨h, ?_, ?_⟩ <;> intro heq <;> rw [heq] at h <;>
        exact absurd h (by decide)
    · rw [if_neg h]
      exact ⟨by decide, by decide, by decide⟩
  refine ⟨hsafe name, ⟨⟨name.data.map sanitizeChar⟩, rfl, hsafe name⟩, ?_⟩
  have hconc : (⟨"a/../../etc".data.map sanitizeChar⟩ : String) =
      "a_______etc" := by decide
  show dir ++ "/" ++ (⟨"a/../../etc".data.map sanitizeChar⟩ : String) ++ ".db" =
    dir ++ "/" ++ "a_______etc" ++ ".db"
  rw [hconc]

/-- Witness for `getJournalPath_sanitizes` at the directory "j". -/
theorem getJournalPath_sanitizes_witness :
    getJournalPath "j" "a/../../etc" = "j" ++ "/" ++ "a_______etc" ++ ".db" :=
  (getJournalPath_sanitizes "j" "x").2.2

/-- Claim C10: name sanitization is not injective: the distinct names
"a/b" and "a_b" resolve to the same file path, and creating "a/b" while
a journal occupies the sanitized path fails with the already-exists
error. -/
theorem sanitize_collision :
    ("a/b" : String) ≠ "a_b" ∧
    getJournalPath "j" "a/b" = getJournalPath "j" "a_b" ∧
    (createJournal
        (fun q => if q = "j/a_b.db" then some (List.range 16 ++ [1]) else none)
        "j" "a/b" (List.range 16) [5]).1 = .error .alreadyExists := by
  refine ⟨by decide, by decide, by decide⟩

/-- A concrete stand-in for the external Argon2id compression, used only
to instantiate witnesses: it returns hashLength zero bytes. -/
def coreW (o : Argon2Options) (_p : String) (_s : Bytes) : Bytes :=
  List.replicate o.hashLength 0

/-- Claim C9: key derivation is deterministic: two calls of deriveKey
with an identical passphrase and identical salt yield identical keys,
whatever fresh randomness the library holds (the salt option is always
supplied, so the random draw is unused), and the key is the hex encoding
of a 32-byte (256-bit) hash. -/
theorem deriveKey_deterministic
    (core : Argon2Options → String → Bytes → Bytes)
    (hcore : ∀ o p s, (core o p s).length = o.hashLength)
    (r1 r2 : Bytes) (passphrase : String) (salt : Bytes) :
    deriveKey core r1 passphrase salt = deriveKey core r2 passphrase salt ∧
    (deriveKey core r1 passphrase salt).length = 64 := by
  constructor
  · rfl
  · unfold deriveKey argon2Hash
    rw [bytesToHex_length, hcore]
    rfl

/-- Witness for `deriveKey_deterministic` with the stand-in core. -/
theorem deriveKey_deterministic_witness :
    (∀ o p s, (coreW o p s).length = o.hashLength) ∧
    (deriveKey coreW [1] "pw" (List.range 16) =
       deriveKey coreW [2] "pw" (List.range 16) ∧
     (deriveKey coreW [1] "pw" (List.range 16)).length = 64) :=
  ⟨fun o _ _ => by simp [coreW],
   deriveKey_deterministic coreW (fun o _ _ => by simp [coreW])
     [1] [2] "pw" (List.range 16)⟩

/-- Claim C1 counterexample: with the canonical vault file holding salt
0..15 followed by payload [100] and the staging artifact holding [7, 7],
a close whose writeFileSync fails after 3 bytes leaves the canonical
file holding [0, 1, 2] — not its previous complete contents — and the
operation trace is read-read-write with the write aimed directly at the
canonical path, no temporary file and no rename. -/
theorem close_not_atomic_cex :
    let fs0 : FSState := fun q =>
      if q = "j/d.db" then some (List.range 16 ++ [100])
      else if q = "j/d.db.tmp" then some [7, 7] else none
    let out := closeDatabase ⟨true, .fail 3⟩ fs0 "j/d.db"
    out.fs "j/d.db" = some [0, 1, 2] ∧
    some [0, 1, 2] ≠ some (List.range 16 ++ [100]) ∧
    out.trace = [.read "j/d.db.tmp", .read "j/d.db", .write "j/d.db"] := by
  decide

/-- Claim C1 amended: every fold-back of the staging artifact into the
canonical vault file — in closeDatabase and in the auto-save tick —
overwrites the canonical file in place with one writeFileSync of the
joined bytes: the trace contains a write to the canonical path itself
and never a rename, so when that write fails after k bytes the canonical
file is left holding the first k bytes of the new joined contents
instead of its previous complete contents. -/
theorem close_foldback_overwrites_in_place
    (fs : FSState) (dbPath : String) (dbData fileData : Bytes) (k : Nat)
    (htmp : fs (dbPath ++ ".tmp") = some dbData)
    (hdb : fs dbPath = some fileData) :
    (∀ w : WriteRes,
       FsOp.write dbPath ∈ (closeDatabase ⟨true, w⟩ fs dbPath).trace ∧
       ∀ op ∈ (closeDatabase ⟨true, w⟩ fs dbPath).trace,
         op.isRename = false) ∧
    (closeDatabase ⟨true, .fail k⟩ fs dbPath).fs dbPath =
      some ((joinContainer (fileData.take 16) dbData).take k) ∧
    (autoSaveTick (.fail k) ⟨some 1, some dbPath, true, true⟩ fs).1 dbPath =
      some ((joinContainer (fileData.take 16) dbData).take k) := by
  refine ⟨?_, ?_, ?_⟩
  · intro w
    refine ⟨?_, ?_⟩
    · show FsOp.write dbPath ∈ (mergeTempIntoMain w fs dbPath).2.1
      cases w with
      | ok =>
        rw [(mergeTempIntoMain_ok fs dbPath dbData fileData htmp hdb).2.2]
        simp
      | fail m =>
        rw [(mergeTempIntoMain_fail fs dbPath dbData fileData m htmp hdb).2.2]
        simp
    · show ∀ op ∈ (mergeTempIntoMain w fs dbPath).2.1, op.isRename = false
      exact mergeTempIntoMain_no_rename w fs dbPath
  · show (mergeTempIntoMain (.fail k) fs dbPath).1 dbPath = _
    exact (mergeTempIntoMain_fail fs dbPath dbData fileData k htmp hdb).1
  · show (mergeTempIntoMain (.fail k) fs dbPath).1 dbPath = _
    exact (mergeTempIntoMain_fail fs dbPath dbData fileData k htmp hdb).1

/-- Witness for `close_foldback_overwrites_in_place` at a concrete
filesystem and a write failing after 3 bytes. -/
theorem close_foldback_overwrites_in_place_witness :
    ((fun q => if q = "p.db" then some (List.range 16 ++ [100])
               else if q = "p.db.tmp" then some [7, 7]
               else none) : FSState) ("p.db" ++ ".tmp") = some [7, 7] ∧
    ((fun q => if q = "p.db" then some (List.range 16 ++ [100])
               else if q = "p.db.tmp" then some [7, 7]
               else none) : FSState) "p.db" = some (List.range 16 ++ [100]) ∧
    (closeDatabase ⟨true, .fail 3⟩
        (fun q => if q = "p.db" then some (List.range 16 ++ [100])
                  else if q = "p.db.tmp" then some [7, 7]
                  else none) "p.db").fs "p.db" =
      some ((joinContainer ((List.range 16 ++ [100]).take 16) [7, 7]).take 3) :=
  ⟨by decide, by decide,
   (close_foldback_overwrites_in_place
      (fun q => if q = "p.db" then some (List.range 16 ++ [100])
                else if q = "p.db.tmp" then some [7, 7]
                else none)
      "p.db" [7, 7] (List.range 16 ++ [100]) 3 (by decide) (by decide)).2.1⟩

/-- Claim C6 counterexample: a close whose final fold-back write fails
releases the engine handle but surfaces no error: the caller gets the
same normal return as on success, while the staging artifact with the
unmerged bytes is still on disk. -/
theorem close_swallows_error_cex :
    let fs0 : FSState := fun q =>
      if q = "j/d.db" then some (List.range 16 ++ [100])
      else if q = "j/d.db.tmp" then some [7, 7] else none
    let out := closeDatabase ⟨true, .fail 0⟩ fs0 "j/d.db"
    out.handleClosed = true ∧ out.surfacedError = none ∧
    out.fs "j/d.db.tmp" = some [7, 7] := by
  decide

/-- Claim C6 amended: close releases the engine handle before the
fold-back, but a fold-back failure is caught inside closeDatabase and
only logged to the console: no error is ever surfaced to the caller on
any input, and after a failed fold-back write the staging artifact
remains on disk. -/
theorem close_releases_handle_but_swallows
    (env : CloseEnv) (fs : FSState) (dbPath : String)
    (dbData fileData : Bytes) (k : Nat)
    (htmp : fs (dbPath ++ ".tmp") = some dbData)
    (hdb : fs dbPath = some fileData) :
    (closeDatabase env fs dbPath).surfacedError = none ∧
    (env.closeOk = true → (closeDatabase env fs dbPath).handleClosed = true) ∧
    (closeDatabase ⟨true, .fail k⟩ fs dbPath).fs (dbPath ++ ".tmp") =
      some dbData := by
  refine ⟨?_, ?_, ?_⟩
  · unfold closeDatabase
    by_cases h : env.closeOk = false <;> simp [h]
  · intro h
    unfold closeDatabase
    simp [h]
  · show (mergeTempIntoMain (.fail k) fs dbPath).1 (dbPath ++ ".tmp") = _
    exact (mergeTempIntoMain_fail fs dbPath dbData fileData k htmp hdb).2.1

/-- Witness for `close_releases_handle_but_swallows` at a concrete
filesystem and a write failing immediately. -/
theorem close_releases_handle_but_swallows_witness :
    ((fun q => if q = "q.db" then some (List.range 16 ++ [100])
               else if q = "q.db.tmp" then some [8] else none) : FSState)
        ("q.db" ++ ".tmp") = some [8] ∧
    ((fun q => if q = "q.db" then some (List.range 16 ++ [100])
               else if q = "q.db.tmp" then some [8] else none) : FSState)
        "q.db" = some (List.range 16 ++ [100]) ∧
    ((⟨true, .fail 0⟩ : CloseEnv).closeOk = true) ∧
    ((closeDatabase ⟨true, .fail 0⟩
        (fun q => if q = "q.db" then some (List.range 16 ++ [100])
                  else if q = "q.db.tmp" then some [8] else none)
        "q.db").surfacedError = none ∧
     (closeDatabase ⟨true, .fail 0⟩
        (fun q => if q = "q.db" then some (List.range 16 ++ [100])
                  else if q = "q.db.tmp" then some [8] else none)
        "q.db").fs ("q.db" ++ ".tmp") = some [8]) := by
  have h := close_releases_handle_but_swallows ⟨true, .fail 0⟩
    (fun q => if q = "q.db" then some (List.range 16 ++ [100])
              else if q = "q.db.tmp" then some [8] else none)
    "q.db" [8] (List.range 16 ++ [100]) 0 (by decide) (by decide)
  exact ⟨by decide, by decide, by decide, h.1, h.2.2⟩

/-- Claim C2 counterexample: when key derivation fails, open exits with
an error yet the staging artifact is left on disk: after the failure the
.tmp sibling of the vault file still holds the staged payload. -/
theorem open_failure_leaves_staging_cex :
    let fs0 : FSState := fun q =>
      if q = "j/d.db" then some (List.range 16 ++ [1, 2, 3]) else none
    (openDatabase ⟨false, true, true⟩ fs0 "j" "d").1 =
      .error .derivationError ∧
    (openDatabase ⟨false, true, true⟩ fs0 "j" "d").2 "j/d.db.tmp" =
      some [1, 2, 3] := by
  decide

/-- Claim C2 amended: every exit of open leaves the canonical vault file
byte-for-byte unchanged, and a non-success response of the unlock
handler leaves the server session state unchanged (still Locked); the
wrong-passphrase (probe-failure) exit also removes the staging artifact,
but the key-derivation-failure exit and the engine-connection-open
failure exit both leave the staging artifact on disk. -/
theorem open_error_paths
    (fs : FSState) (dir name : String) (fileData : Bytes)
    (hdb : fs (getJournalPath dir name) = some fileData)
    (hlen : 16 ≤ fileData.length) :
    (∀ env : OpenEnv,
       (openDatabase env fs dir name).2 (getJournalPath dir name) =
         fs (getJournalPath dir name)) ∧
    (∀ (env : OpenEnv) (nh : Nat) (st : ServerSt) (pass : String),
       (postUnlock env nh fs st dir name pass).1.status = 200 ∨
       (postUnlock env nh fs st dir name pass).2.1 = st) ∧
    ((openDatabase ⟨true, true, false⟩ fs dir name).1 =
       .error .wrongPassphrase ∧
     (openDatabase ⟨true, true, false⟩ fs dir name).2
       (getJournalPath dir name ++ ".tmp") = none) ∧
    ((openDatabase ⟨false, true, true⟩ fs dir name).1 =
       .error .derivationError ∧
     (openDatabase ⟨false, true, true⟩ fs dir name).2
       (getJournalPath dir name ++ ".tmp") = some (fileData.drop 16)) ∧
    ((openDatabase ⟨true, false, true⟩ fs dir name).1 =
       .error .engineOpenError ∧
     (openDatabase ⟨true, false, true⟩ fs dir name).2
       (getJournalPath dir name ++ ".tmp") = some (fileData.drop 16)) := by
  have hsplit : splitContainer fileData =
      .ok (fileData.take 16, fileData.drop 16) := by
    unfold splitContainer
    rw [if_neg (by omega)]
  refine ⟨fun env => openDatabase_canonical_unchanged env fs dir name,
    ?_, ?_, ?_, ?_⟩
  · intro env nh st pass
    unfold postUnlock
    by_cases h : name = "" ∨ pass = ""
    · rw [if_pos h]
      right
      rfl
    · rw [if_neg h]
      cases hop : openDatabase env fs dir name with
      | mk r fs' =>
        cases r with
        | error e =>
          simp only [hop]
          right
          trivial
        | ok p =>
          simp only [hop]
          left
          trivial
  · constructor
    · simp [openDatabase, hdb, hsplit]
    · simp [openDatabase, hdb, hsplit, fsUnlink_self]
  · constructor
    · simp [openDatabase, hdb, hsplit]
    · simp [openDatabase, hdb, hsplit, fsWrite_self]
  · constructor
    · simp [openDatabase, hdb, hsplit]
    · simp [openDatabase, hdb, hsplit, fsWrite_self]

/-- Witness for `open_error_paths` at a concrete vault file. -/
theorem open_error_paths_witness :
    ((fun q => if q = "w/v.db" then some (List.range 16 ++ [4, 5]) else none) :
        FSState) (getJournalPath "w" "v") = some (List.range 16 ++ [4, 5]) ∧
    16 ≤ (List.range 16 ++ [4, 5] : Bytes).length ∧
    ((openDatabase ⟨true, true, false⟩
        (fun q => if q = "w/v.db" then some (List.range 16 ++ [4, 5]) else none)
        "w" "v").1 = .error .wrongPassphrase ∧
     (openDatabase ⟨false, true, true⟩
        (fun q => if q = "w/v.db" then some (List.range 16 ++ [4, 5]) else none)
        "w" "v").2 (getJournalPath "w" "v" ++ ".tmp") =
       some ((List.range 16 ++ [4, 5] : Bytes).drop 16) ∧
     (openDatabase ⟨true, false, true⟩
        (fun q => if q = "w/v.db" then some (List.range 16 ++ [4, 5]) else none)
        "w" "v").2 (getJournalPath "w" "v" ++ ".tmp") =
       some ((List.range 16 ++ [4, 5] : Bytes).drop 16)) := by
  have h := open_error_paths
    (fun q => if q = "w/v.db" then some (List.range 16 ++ [4, 5]) else none)
    "w" "v" (List.range 16 ++ [4, 5]) (by decide) (by decide)
  exact ⟨by decide, by decide, h.2.2.1.1, h.2.2.2.1.2, h.2.2.2.2.2⟩

/-- Claim C4: the 16-byte salt is embedded once at creation as the first
16 bytes of the canonical file, open never writes the canonical path,
and each completed fold-back (close and auto-save) re-prepends exactly
the first 16 bytes it read from the canonical file, so the salt is
preserved unchanged by every operation. -/
theorem salt_generated_once_and_preserved
    (fs fs2 : FSState) (dir name dbPath : String)
    (salt engineBytes dbData fileData : Bytes)
    (hnew : fs (getJournalPath dir name) = none)
    (hsalt : salt.length = 16)
    (htmp : fs2 (dbPath ++ ".tmp") = some dbData)
    (hdb : fs2 dbPath = some fileData)
    (hlen : 16 ≤ fileData.length) :
    ((createJournal fs dir name salt engineBytes).2 (getJournalPath dir name) =
       some (joinContainer salt engineBytes) ∧
     (joinContainer salt engineBytes).take 16 = salt) ∧
    (∀ env : OpenEnv,
       (openDatabase env fs2 dir name).2 (getJournalPath dir name) =
         fs2 (getJournalPath dir name)) ∧
    ((closeDatabase ⟨true, .ok⟩ fs2 dbPath).fs dbPath =
       some (joinContainer (fileData.take 16) dbData) ∧
     (joinContainer (fileData.take 16) dbData).take 16 = fileData.take 16) ∧
    (autoSaveTick .ok ⟨some 1, some dbPath, true, true⟩ fs2).1 dbPath =
      some (joinContainer (fileData.take 16) dbData) := by
  have htl : (fileData.take 16).length = 16 := by
    rw [List.length_take]
    omega
  refine ⟨⟨?_, List.take_left' hsalt⟩,
    fun env => openDatabase_canonical_unchanged env fs2 dir name,
    ⟨?_, List.take_left' htl⟩, ?_⟩
  · simp only [createJournal, hnew]
    exact fsWrite_self _ _ _
  · show (mergeTempIntoMain .ok fs2 dbPath).1 dbPath = _
    exact (mergeTempIntoMain_ok fs2 dbPath dbData fileData htmp hdb).1
  · show (mergeTempIntoMain .ok fs2 dbPath).1 dbPath = _
    exact (mergeTempIntoMain_ok fs2 dbPath dbData fileData htmp hdb).1

/-- Witness for `salt_generated_once_and_preserved` at concrete salts and
payloads. -/
theorem salt_generated_once_and_preserved_witness :
    ((fun _ => none) : FSState) (getJournalPath "w" "v") = none ∧
    (List.range 16).length = 16 ∧
    ((fun q => if q = "r.db" then some (List.range 16 ++ [9])
               else if q = "r.db.tmp" then some [6] else none) : FSState)
        ("r.db" ++ ".tmp") = some [6] ∧
    ((fun q => if q = "r.db" then some (List.range 16 ++ [9])
               else if q = "r.db.tmp" then some [6] else none) : FSState)
        "r.db" = some (List.range 16 ++ [9]) ∧
    16 ≤ (List.range 16 ++ [9] : Bytes).length ∧
    ((createJournal (fun _ => none) "w" "v" (List.range 16) [2]).2
        (getJournalPath "w" "v") = some (joinContainer (List.range 16) [2]) ∧
     (closeDatabase ⟨true, .ok⟩
        (fun q => if q = "r.db" then some (List.range 16 ++ [9])
                  else if q = "r.db.tmp" then some [6] else none)
        "r.db").fs "r.db" =
       some (joinContainer ((List.range 16 ++ [9] : Bytes).take 16) [6])) := by
  have h := salt_generated_once_and_preserved
    (fun _ => none)
    (fun q => if q = "r.db" then some (List.range 16 ++ [9])
              else if q = "r.db.tmp" then some [6] else none)
    "w" "v" "r.db" (List.range 16) [2] [6] (List.range 16 ++ [9])
    (by decide) (by decide) (by decide) (by decide) (by decide)
  exact ⟨by decide, by decide, by decide, by decide, by decide,
    h.1.1, h.2.2.1.1⟩

/-- Claim C5 counterexample: two sequential unlock requests on the same
vault name both succeed with HTTP 200: the second is not rejected with
any already-unlocked error, and it silently replaces the stored engine
handle 1 with the new handle 2. -/
theorem double_unlock_cex :
    let fs0 : FSState := fun q =>
      if q = "j/d.db" then some (List.range 16 ++ [9]) else none
    let r1 := postUnlock ⟨true, true, true⟩ 1 fs0
      ⟨none, none, false, false⟩ "j" "d" "pw"
    let r2 := postUnlock ⟨true, true, true⟩ 2 r1.2.2 r1.2.1 "j" "d" "pw"
    r1.1.status = 200 ∧ r1.2.1.dbConnection = some 1 ∧
    r1.2.1.isUnlocked = true ∧
    r2.1.status = 200 ∧ r2.2.1.dbConnection = some 2 := by
  decide

/-- Claim C5 amended: the unlock handler never consults the unlocked
state: while a session is Unlocked, a second open request for the same
vault is processed like the first, and when openDatabase succeeds it
answers 200 and silently replaces the stored engine handle and path —
no already-unlocked error exists in the code. -/
theorem second_unlock_replaces_handle
    (fs : FSState) (st : ServerSt) (dir name pass : String) (nh : Nat)
    (fileData : Bytes)
    (hunlocked : st.isUnlocked = true)
    (hname : name ≠ "") (hpass : pass ≠ "")
    (hdb : fs (getJournalPath dir name) = some fileData)
    (hlen : 16 ≤ fileData.length) :
    (postUnlock ⟨true, true, true⟩ nh fs st dir name pass).1.status = 200 ∧
    (postUnlock ⟨true, true, true⟩ nh fs st dir name pass).2.1 =
      ⟨some nh, some (getJournalPath dir name), true, true⟩ := by
  have hsplit : splitContainer fileData =
      .ok (fileData.take 16, fileData.drop 16) := by
    unfold splitContainer
    rw [if_neg (by omega)]
  have hopen : (openDatabase ⟨true, true, true⟩ fs dir name).1 =
      .ok (getJournalPath dir name) := by
    simp [openDatabase, hdb, hsplit]
  unfold postUnlock
  rw [if_neg (by simp [hname, hpass])]
  cases hop : openDatabase ⟨true, true, true⟩ fs dir name with
  | mk r fs' =>
    rw [hop] at hopen
    cases r with
    | error e => exact absurd hopen (by simp)
    | ok p =>
      simp only [hop]
      simp only at hopen
      rw [show p = getJournalPath dir name from by
        injection hopen with h2]
      exact ⟨trivial, rfl⟩

/-- Witness for `second_unlock_replaces_handle` at a concrete unlocked
session and vault file. -/
theorem second_unlock_replaces_handle_witness :
    (⟨some 1, some "w/v.db", true, true⟩ : ServerSt).isUnlocked = true ∧
    ("v" : String) ≠ "" ∧ ("pw" : String) ≠ "" ∧
    ((fun q => if q = "w/v.db" then some (List.range 16 ++ [4]) else none) :
        FSState) (getJournalPath "w" "v") = some (List.range 16 ++ [4]) ∧
    16 ≤ (List.range 16 ++ [4] : Bytes).length ∧
    ((postUnlock ⟨true, true, true⟩ 2
        (fun q => if q = "w/v.db" then some (List.range 16 ++ [4]) else none)
        ⟨some 1, some "w/v.db", true, true⟩ "w" "v" "pw").1.status = 200 ∧
     (postUnlock ⟨true, true, true⟩ 2
        (fun q => if q = "w/v.db" then some (List.range 16 ++ [4]) else none)
        ⟨some 1, some "w/v.db", true, true⟩ "w" "v" "pw").2.1 =
       ⟨some 2, some (getJournalPath "w" "v"), true, true⟩) := by
  have h := second_unlock_replaces_handle
    (fun q => if q = "w/v.db" then some (List.range 16 ++ [4]) else none)
    ⟨some 1, some "w/v.db", true, true⟩ "w" "v" "pw" 2
    (List.range 16 ++ [4])
    (by decide) (by decide) (by decide) (by decide) (by decide)
  exact ⟨by decide, by decide, by decide, by decide, by decide, h.1, h.2⟩

end JournalApp
